import Mathlib

/-!
Shallow embedding of the client-side message routing core of tab-rs
(src/tab-cli/src/service/client.rs) and proofs of its routing properties.

The source spawns three routing tasks on a typed bus:
  - a request_tab task (ClientService::spawn): on each TabState update,
    a TabState.Awaiting value produces one Request.CreateTab carrying the
    latched terminal dimensions;
  - a websocket recv task (WebsocketMessageService::spawn): dispatches
    each daemon Response to terminal, metadata, available-tabs, tabs,
    tab-terminated and shutdown channels;
  - a terminal task (TerminalMessageService::spawn): forwards Stdin bytes
    to the selected tab as Request.Input.

Each task body is embedded as a function from its inputs to the list of
messages it sends, paired with a Bool success flag. A send on a channel
can fail (the receiving task exited); an oracle of type Chan -> Bool says
which channels accept sends. The Rust question-mark operator is embedded
by andThen: a failed send stops the task with the error flag, keeping the
messages already sent. The latched TabState the task borrows at each
dispatch is paired with the incoming message, matching the non-locking
borrow in the source.
-/

/-- Tab identifiers: opaque 64-bit values minted by the daemon. -/
abbrev TabId := Nat

/-- TabMetadata, per the wire shapes of the spec: id, name, dimensions. -/
structure TabMetadata where
  id : TabId
  name : String
  dimensions : Nat × Nat
deriving DecidableEq, Repr

/-- CreateTabMetadata as built in ClientService::spawn. -/
structure CreateTabMetadata where
  name : String
  dimensions : Nat × Nat
deriving DecidableEq, Repr

/-- InputChunk: bytes of local input. -/
structure InputChunk where
  data : List Nat
deriving DecidableEq, Repr

/-- OutputChunk: bytes of remote output. -/
structure OutputChunk where
  data : List Nat
deriving DecidableEq, Repr

/-- TabState: the latched selection state written by the external selector. -/
inductive TabState where
  | None : TabState
  | Awaiting : String → TabState
  | Selected : TabId → TabMetadata → TabState
deriving DecidableEq, Repr

/-- Modelled from the spec: TabState.is_selected lives in
src/tab-cli/src/state/tab.rs, which is not under src; per the spec it
holds exactly when the state is Selected with the given id. -/
def TabState.is_selected (st : TabState) (id : TabId) : Bool :=
  match st with
  | TabState.Selected selected _ => selected == id
  | _ => false

/-- The latched terminal size; the source reads its field with .0. -/
structure TerminalSizeState where
  dims : Nat × Nat
deriving DecidableEq, Repr

/-- The init payload; the source iterates init.tabs as (id, metadata) pairs. -/
structure InitResponse where
  tabs : List (TabId × TabMetadata)
deriving DecidableEq, Repr

/-- Daemon responses consumed by the websocket recv task. -/
inductive Response where
  | Init : InitResponse → Response
  | Output : TabId → OutputChunk → Response
  | TabUpdate : TabMetadata → Response
  | TabList : List TabMetadata → Response
  | TabTerminated : TabId → Response
deriving DecidableEq, Repr

/-- Requests sent to the daemon by the request_tab and terminal tasks. -/
inductive Request where
  | CreateTab : CreateTabMetadata → Request
  | Input : TabId → InputChunk → Request
deriving DecidableEq, Repr

/-- Messages to the local terminal. -/
inductive TerminalRecv where
  | Stdout : List Nat → TerminalRecv
deriving DecidableEq, Repr

/-- Messages from the local terminal driver. -/
inductive TerminalSend where
  | Stdin : List Nat → TerminalSend
  | Resize : Nat × Nat → TerminalSend
deriving DecidableEq, Repr

/-- Messages on the tabs channel. -/
inductive TabsRecv where
  | Init : List (TabId × TabMetadata) → TabsRecv
  | Update : TabMetadata → TabsRecv
  | Terminated : TabId → TabsRecv
deriving DecidableEq, Repr

/-- The output channels of the websocket recv task, keyed as in the bus. -/
inductive Chan where
  | terminal : Chan
  | tabMetadata : Chan
  | availableTabs : Chan
  | shutdown : Chan
  | tabs : Chan
  | tabTerminated : Chan
  | request : Chan
deriving DecidableEq, Repr, BEq

/-- One emission of the websocket recv task, tagged by destination. -/
inductive Emit where
  | terminalRecv : TerminalRecv → Emit
  | tabMetadata : TabMetadata → Emit
  | availableTabs : List TabMetadata → Emit
  | shutdown : Emit
  | tabsRecv : TabsRecv → Emit
  | tabTerminated : TabId → Emit
deriving DecidableEq, Repr

/-- A send on channel c: emits the message when the channel accepts sends,
otherwise emits nothing and reports the error. -/
def trySend {α : Type} (ok : Chan → Bool) (c : Chan) (e : α) : List α × Bool :=
  if ok c then ([e], true) else ([], false)

/-- Sequencing with the question-mark operator: the continuation runs only
when the first step succeeded; emissions accumulate in order. -/
def andThen {α : Type} (a : List α × Bool) (b : Unit → List α × Bool) :
    List α × Bool :=
  if a.2 then ((a.1 ++ (b ()).1), (b ()).2) else a

/-- The for loop in the Response::Init arm: publish each metadata value on
the TabMetadata broadcast, stopping with an error on a failed send. -/
def sendMetadatas (ok : Chan → Bool) : List (TabId × TabMetadata) → List Emit × Bool
  | [] => ([], true)
  | (_, metadata) :: rest =>
      andThen (trySend ok Chan.tabMetadata (Emit.tabMetadata metadata))
        (fun _ => sendMetadatas ok rest)

/-- The dispatch body of the websocket recv task
(WebsocketMessageService::spawn), one Response at a time; tabState is the
borrowed latched TabState at the moment of dispatch. -/
def handleResponse (tabState : TabState) (ok : Chan → Bool) (msg : Response) :
    List Emit × Bool :=
  match msg with
  | Response.Init init =>
      andThen (trySend ok Chan.tabs (Emit.tabsRecv (TabsRecv.Init init.tabs)))
        (fun _ => sendMetadatas ok init.tabs)
  | Response.Output tab_id stdout =>
      if tabState.is_selected tab_id then
        trySend ok Chan.terminal (Emit.terminalRecv (TerminalRecv.Stdout stdout.data))
      else ([], true)
  | Response.TabUpdate tab =>
      andThen (trySend ok Chan.tabMetadata (Emit.tabMetadata tab))
        (fun _ => trySend ok Chan.tabs (Emit.tabsRecv (TabsRecv.Update tab)))
  | Response.TabList tabs =>
      trySend ok Chan.availableTabs (Emit.availableTabs tabs)
  | Response.TabTerminated id =>
      andThen (trySend ok Chan.tabs (Emit.tabsRecv (TabsRecv.Terminated id)))
        (fun _ =>
          andThen (trySend ok Chan.tabTerminated (Emit.tabTerminated id))
            (fun _ =>
              if tabState.is_selected id then
                trySend ok Chan.shutdown Emit.shutdown
              else ([], true)))

/-- The websocket recv loop over a stream of responses, each paired with
the latched TabState borrowed at its dispatch; an exhausted stream is
upstream closure and ends the task with success. -/
def websocketRun (ok : Chan → Bool) : List (TabState × Response) → List Emit × Bool
  | [] => ([], true)
  | (st, msg) :: rest =>
      andThen (handleResponse st ok msg) (fun _ => websocketRun ok rest)

/-- The body of the request_tab task (ClientService::spawn), one TabState
update at a time; size is the latched TerminalSizeState borrowed when the
update is handled. -/
def requestTab (size : TerminalSizeState) (ok : Chan → Bool) (update : TabState) :
    List Request × Bool :=
  match update with
  | TabState.Awaiting name =>
      trySend ok Chan.request (Request.CreateTab ⟨name, size.dims⟩)
  | _ => ([], true)

/-- The request_tab loop over a stream of TabState updates, each paired
with the latched size at its dispatch. -/
def requestTabRun (ok : Chan → Bool) :
    List (TerminalSizeState × TabState) → List Request × Bool
  | [] => ([], true)
  | (size, update) :: rest =>
      andThen (requestTab size ok update) (fun _ => requestTabRun ok rest)

/-- The match body of the terminal task (TerminalMessageService::spawn):
only a Selected state paired with Stdin bytes produces a request. -/
def handleTerminalSend (tabState : TabState) (ok : Chan → Bool) (msg : TerminalSend) :
    List Request × Bool :=
  match tabState, msg with
  | TabState.Selected id _, TerminalSend.Stdin data =>
      trySend ok Chan.request (Request.Input id ⟨data⟩)
  | _, _ => ([], true)

/-- Modelled from the spec: one receive on the TerminalSend broadcast
subscriber (the tab_service bus is not under src). Per the spec the
channel is capacity-bounded and drops oldest values for a slow subscriber;
the receive then reports the loss as an error value instead of a message,
which is what the while let Ok pattern in the source examines. Each
delivered message is paired with the latched TabState borrowed at its
dispatch; the end of the list is channel closure. -/
inductive BcastRecv where
  | recv : TabState → TerminalSend → BcastRecv
  | lagged : BcastRecv
deriving DecidableEq, Repr

/-- The terminal task loop: while let Ok(msg) = rx.recv().await. A lagged
receive is an Err, so the loop exits and the task returns success, exactly
as the source is written. -/
def terminalRun (ok : Chan → Bool) : List BcastRecv → List Request × Bool
  | [] => ([], true)
  | BcastRecv.lagged :: _ => ([], true)
  | BcastRecv.recv st msg :: rest =>
      andThen (handleTerminalSend st ok msg) (fun _ => terminalRun ok rest)

/-- The oracle under which every channel accepts sends. -/
def allOk : Chan → Bool := fun _ => true

/-- The latched TabStateAvailable value after a list of emissions, starting
from init: each availableTabs broadcast replaces the value. -/
def latchAvailable (init : Option (List TabMetadata)) :
    List Emit → Option (List TabMetadata)
  | [] => init
  | Emit.availableTabs tabs :: rest => latchAvailable (some tabs) rest
  | _ :: rest => latchAvailable init rest

/-- Written from the words of the spec, for comparison with the routing
code: the tabs list of the most recent Response.TabList in the stream,
starting from init. -/
def specLastTabList (init : Option (List TabMetadata)) :
    List (TabState × Response) → Option (List TabMetadata)
  | [] => init
  | (_, Response.TabList tabs) :: rest => specLastTabList (some tabs) rest
  | _ :: rest => specLastTabList init rest

lemma trySend_allOk {α : Type} (c : Chan) (e : α) :
    trySend allOk c e = ([e], true) := rfl

lemma sendMetadatas_allOk (l : List (TabId × TabMetadata)) :
    sendMetadatas allOk l = (l.map (fun p => Emit.tabMetadata p.2), true) := by
  induction l with
  | nil => rfl
  | cons hd tl ih =>
      obtain ⟨i, m⟩ := hd
      simp [sendMetadatas, andThen, trySend, allOk, ih]

lemma handleResponse_allOk_snd (st : TabState) (msg : Response) :
    (handleResponse st allOk msg).2 = true := by
  cases msg with
  | Init init =>
      simp [handleResponse, andThen, trySend, allOk, sendMetadatas_allOk]
  | Output tab_id stdout =>
      by_cases h : st.is_selected tab_id
      all_goals simp [handleResponse, trySend, allOk, h]
  | TabUpdate tab =>
      simp [handleResponse, andThen, trySend, allOk]
  | TabList tabs =>
      simp [handleResponse, trySend, allOk]
  | TabTerminated id =>
      by_cases h : st.is_selected id
      all_goals simp [handleResponse, andThen, trySend, allOk, h]

lemma websocketRun_allOk_snd (msgs : List (TabState × Response)) :
    (websocketRun allOk msgs).2 = true := by
  induction msgs with
  | nil => rfl
  | cons hd tl ih =>
      obtain ⟨st, msg⟩ := hd
      simp [websocketRun, andThen, handleResponse_allOk_snd, ih]

lemma websocketRun_allOk_cons (st : TabState) (msg : Response)
    (rest : List (TabState × Response)) :
    (websocketRun allOk ((st, msg) :: rest)).1
      = (handleResponse st allOk msg).1 ++ (websocketRun allOk rest).1 := by
  simp [websocketRun, andThen, handleResponse_allOk_snd]

lemma websocketRun_allOk_append (xs ys : List (TabState × Response)) :
    (websocketRun allOk (xs ++ ys)).1
      = (websocketRun allOk xs).1 ++ (websocketRun allOk ys).1 := by
  induction xs with
  | nil => simp [websocketRun]
  | cons hd tl ih =>
      obtain ⟨st, msg⟩ := hd
      simp [websocketRun_allOk_cons, ih]

lemma is_selected_iff (st : TabState) (id : TabId) :
    st.is_selected id = true ↔ ∃ m, st = TabState.Selected id m := by
  cases st with
  | None => simp [TabState.is_selected]
  | Awaiting name => simp [TabState.is_selected]
  | Selected selected m =>
      constructor
      · intro h
        have hsel : selected = id := by
          simpa [TabState.is_selected] using h
        exact ⟨m, by rw [hsel]⟩
      · rintro ⟨m2, hm⟩
        injection hm with h1 h2
        simp [TabState.is_selected, h1]

/-- C1: a Response.Output for tab_id is forwarded as TerminalRecv.Stdout
of the same bytes iff the latched TabState at dispatch is Selected with
that tab_id; in every other state nothing is emitted or buffered. -/
theorem output_routed_iff_selected (st : TabState) (tab_id : TabId) (d : List Nat) :
    (handleResponse st allOk (Response.Output tab_id ⟨d⟩)).1
        = (if st.is_selected tab_id
            then [Emit.terminalRecv (TerminalRecv.Stdout d)] else []) ∧
    (st.is_selected tab_id = true ↔ ∃ m, st = TabState.Selected tab_id m) := by
  constructor
  · by_cases h : st.is_selected tab_id
    all_goals simp [handleResponse, trySend, allOk, h]
  · exact is_selected_iff st tab_id

/-- C2: a Response.TabTerminated id always emits TabsRecv.Terminated id and
then TabTerminated id, in that order; Emit.shutdown follows both exactly
when the latched TabState is Selected with that id. -/
theorem tabTerminated_emissions (st : TabState) (id : TabId) :
    (handleResponse st allOk (Response.TabTerminated id)).1
        = [Emit.tabsRecv (TabsRecv.Terminated id), Emit.tabTerminated id]
            ++ (if st.is_selected id then [Emit.shutdown] else []) ∧
    (st.is_selected id = true ↔ ∃ m, st = TabState.Selected id m) := by
  constructor
  · by_cases h : st.is_selected id
    all_goals simp [handleResponse, andThen, trySend, allOk, h]
  · exact is_selected_iff st id

/-- C3: a TabState.Awaiting update produces exactly one Request.CreateTab
carrying that name and the latched terminal dimensions at the update; any
other state produces nothing, and a duplicated Awaiting update produces a
duplicated request. -/
theorem awaiting_creates_tab (size : TerminalSizeState) (update : TabState) :
    (requestTab size allOk update).1
        = (match update with
            | TabState.Awaiting name => [Request.CreateTab ⟨name, size.dims⟩]
            | _ => []) ∧
    ∀ n, (requestTabRun allOk
            [(size, TabState.Awaiting n), (size, TabState.Awaiting n)]).1
        = [Request.CreateTab ⟨n, size.dims⟩, Request.CreateTab ⟨n, size.dims⟩] := by
  constructor
  · cases update <;> simp [requestTab, trySend, allOk]
  · intro n
    simp [requestTabRun, requestTab, andThen, trySend, allOk]

/-- C4: a TerminalSend message produces Request.Input id with the bytes iff
it is Stdin and the latched TabState is Selected id; every other
combination, Resize included, produces no request. -/
theorem stdin_routed_iff_selected (st : TabState) (msg : TerminalSend) :
    (handleTerminalSend st allOk msg).1
        = (match st, msg with
            | TabState.Selected id _, TerminalSend.Stdin b => [Request.Input id ⟨b⟩]
            | _, _ => []) ∧
    ∀ (id : TabId) (b : List Nat),
      ((handleTerminalSend st allOk msg).1 = [Request.Input id ⟨b⟩]
        ↔ (msg = TerminalSend.Stdin b ∧ ∃ m, st = TabState.Selected id m)) := by
  constructor
  · cases st <;> cases msg <;> simp [handleTerminalSend, trySend, allOk]
  · intro id b
    cases st <;> cases msg <;>
      simp [handleTerminalSend, trySend, allOk, eq_comm, and_comm]

/-- C5: a Response.TabUpdate emits exactly the TabMetadata publication and
then the TabsRecv.Update, both carrying the same metadata, in that order. -/
theorem tabUpdate_emissions (st : TabState) (meta : TabMetadata) :
    (handleResponse st allOk (Response.TabUpdate meta)).1
        = [Emit.tabMetadata meta, Emit.tabsRecv (TabsRecv.Update meta)] := by
  simp [handleResponse, andThen, trySend, allOk]

/-- C6: after any history, a Response.Init emits one TabsRecv.Init with the
full tabs collection first, then one TabMetadata publication per entry; a
repeated Init after reconnect republishes everything the same way. -/
theorem init_republishes_metadata (hist : List (TabState × Response))
    (st : TabState) (tabs : List (TabId × TabMetadata)) :
    (websocketRun allOk (hist ++ [(st, Response.Init ⟨tabs⟩)])).1
        = (websocketRun allOk hist).1
            ++ Emit.tabsRecv (TabsRecv.Init tabs)
                :: tabs.map (fun p => Emit.tabMetadata p.2) := by
  rw [websocketRun_allOk_append]
  simp [websocketRun_allOk_cons, websocketRun, handleResponse, andThen,
    trySend, allOk, sendMetadatas_allOk]

lemma latchAvailable_append (init : Option (List TabMetadata))
    (a b : List Emit) :
    latchAvailable init (a ++ b) = latchAvailable (latchAvailable init a) b := by
  induction a generalizing init with
  | nil => rfl
  | cons e rest ih => cases e <;> simp [latchAvailable, ih]

lemma latchAvailable_metadatas (init : Option (List TabMetadata))
    (l : List (TabId × TabMetadata)) :
    latchAvailable init (l.map (fun p => Emit.tabMetadata p.2)) = init := by
  induction l with
  | nil => rfl
  | cons hd tl ih => simp [latchAvailable, ih]

lemma latchAvailable_handleResponse (init : Option (List TabMetadata))
    (st : TabState) (msg : Response) :
    latchAvailable init (handleResponse st allOk msg).1
      = (match msg with
          | Response.TabList tabs => some tabs
          | _ => init) := by
  cases msg with
  | Init i =>
      simp [handleResponse, andThen, trySend, allOk, sendMetadatas_allOk,
        latchAvailable, latchAvailable_metadatas]
  | Output tab_id stdout =>
      by_cases h : st.is_selected tab_id
      all_goals simp [handleResponse, trySend, allOk, h, latchAvailable]
  | TabUpdate tab =>
      simp [handleResponse, andThen, trySend, allOk, latchAvailable]
  | TabList tabs =>
      simp [handleResponse, trySend, allOk, latchAvailable]
  | TabTerminated id =>
      by_cases h : st.is_selected id
      all_goals simp [handleResponse, andThen, trySend, allOk, h, latchAvailable]

/-- C9: after the websocket recv task processes any sequence of responses,
the latched TabStateAvailable value is exactly the tabs list of the most
recent Response.TabList, with no merging; other responses never change it. -/
theorem availableTabs_is_last_tabList (init : Option (List TabMetadata))
    (msgs : List (TabState × Response)) :
    latchAvailable init (websocketRun allOk msgs).1 = specLastTabList init msgs := by
  induction msgs generalizing init with
  | nil => rfl
  | cons hd rest ih =>
      obtain ⟨st, msg⟩ := hd
      rw [websocketRun_allOk_cons, latchAvailable_append,
        latchAvailable_handleResponse]
      cases msg <;> simp [specLastTabList, ih]

/-- C7 fails on the code: a lagged receive on the TerminalSend broadcast is
an Err, so the while let Ok loop exits and the task completes with success,
forwarding nothing further — here the Stdin message behind the lag is
dropped even though the handler would have forwarded it. -/
theorem lagged_recv_stops_terminal_task :
    terminalRun allOk
        [BcastRecv.lagged,
          BcastRecv.recv (TabState.Selected 1 ⟨1, "w", (80, 24)⟩)
            (TerminalSend.Stdin [120])]
      = ([], true) ∧
    handleTerminalSend (TabState.Selected 1 ⟨1, "w", (80, 24)⟩) allOk
        (TerminalSend.Stdin [120])
      = ([Request.Input 1 ⟨[120]⟩], true) := by
  exact ⟨rfl, rfl⟩

/-- C8: for each of the three routing tasks, a failed send ends the task at
once with the error flag and the emissions made so far, while an exhausted
input stream ends the task with success. -/
theorem send_failure_fatal_closure_clean :
    (∀ (ok : Chan → Bool) (st : TabState) (msg : Response)
        (rest : List (TabState × Response)),
        (handleResponse st ok msg).2 = false →
        websocketRun ok ((st, msg) :: rest)
          = ((handleResponse st ok msg).1, false)) ∧
    (∀ (ok : Chan → Bool) (size : TerminalSizeState) (update : TabState)
        (rest : List (TerminalSizeState × TabState)),
        (requestTab size ok update).2 = false →
        requestTabRun ok ((size, update) :: rest)
          = ((requestTab size ok update).1, false)) ∧
    (∀ (ok : Chan → Bool) (st : TabState) (msg : TerminalSend)
        (rest : List BcastRecv),
        (handleTerminalSend st ok msg).2 = false →
        terminalRun ok (BcastRecv.recv st msg :: rest)
          = ((handleTerminalSend st ok msg).1, false)) ∧
    (∀ ok, websocketRun ok [] = ([], true)) ∧
    (∀ ok, requestTabRun ok [] = ([], true)) ∧
    (∀ ok, terminalRun ok [] = ([], true)) := by
  refine ⟨?_, ?_, ?_, fun _ => rfl, fun _ => rfl, fun _ => rfl⟩
  · intro ok st msg rest h
    rcases hr : handleResponse st ok msg with ⟨emits, flag⟩
    rw [hr] at h
    subst h
    simp [websocketRun, andThen, hr]
  · intro ok size update rest h
    rcases hr : requestTab size ok update with ⟨emits, flag⟩
    rw [hr] at h
    subst h
    simp [requestTabRun, andThen, hr]
  · intro ok st msg rest h
    rcases hr : handleTerminalSend st ok msg with ⟨emits, flag⟩
    rw [hr] at h
    subst h
    simp [terminalRun, andThen, hr]

/-- Witness for C8: with every channel refusing sends, each task dies with
the error flag on its first send. -/
theorem send_failure_fatal_closure_clean_witness :
    websocketRun (fun _ => false) [(TabState.None, Response.TabList [])]
      = ([], false) ∧
    requestTabRun (fun _ => false) [(⟨(80, 24)⟩, TabState.Awaiting "w")]
      = ([], false) ∧
    terminalRun (fun _ => false)
        [BcastRecv.recv (TabState.Selected 1 ⟨1, "w", (80, 24)⟩)
          (TerminalSend.Stdin [120])]
      = ([], false) := by
  refine ⟨?_, ?_, ?_⟩
  · have h := send_failure_fatal_closure_clean.1 (fun _ => false)
      TabState.None (Response.TabList []) [] rfl
    simpa using h
  · have h := send_failure_fatal_closure_clean.2.1 (fun _ => false)
      ⟨(80, 24)⟩ (TabState.Awaiting "w") [] rfl
    simpa using h
  · have h := send_failure_fatal_closure_clean.2.2.1 (fun _ => false)
      (TabState.Selected 1 ⟨1, "w", (80, 24)⟩) (TerminalSend.Stdin [120]) [] rfl
    simpa using h

/-- C10: within one response the sub-actions form an error-truncated
sequence — for TabTerminated, a failed TabsRecv.Terminated send emits
nothing further, a failed TabTerminated send stops before any shutdown,
and after any failed handler the loop consumes no further response. -/
theorem terminated_error_truncates (st : TabState) (id : TabId)
    (ok : Chan → Bool) :
    (ok Chan.tabs = false →
        handleResponse st ok (Response.TabTerminated id) = ([], false)) ∧
    (ok Chan.tabs = true → ok Chan.tabTerminated = false →
        handleResponse st ok (Response.TabTerminated id)
          = ([Emit.tabsRecv (TabsRecv.Terminated id)], false)) ∧
    (∀ (msg : Response) (rest : List (TabState × Response)),
        (handleResponse st ok msg).2 = false →
        websocketRun ok ((st, msg) :: rest)
          = ((handleResponse st ok msg).1, false)) := by
  refine ⟨?_, ?_, ?_⟩
  · intro h
    simp [handleResponse, andThen, trySend, h]
  · intro h1 h2
    simp [handleResponse, andThen, trySend, h1, h2]
  · intro msg rest h
    rcases hr : handleResponse st ok msg with ⟨emits, flag⟩
    rw [hr] at h
    subst h
    simp [websocketRun, andThen, hr]

/-- Witness for C10: concrete oracles refusing the tabs channel, then only
the tabTerminated channel, truncate the TabTerminated sub-actions there. -/
theorem terminated_error_truncates_witness :
    handleResponse TabState.None (fun _ => false) (Response.TabTerminated 3)
      = ([], false) ∧
    handleResponse TabState.None (fun c => c == Chan.tabs)
        (Response.TabTerminated 3)
      = ([Emit.tabsRecv (TabsRecv.Terminated 3)], false) ∧
    websocketRun (fun _ => false)
        [(TabState.None, Response.TabTerminated 3),
          (TabState.None, Response.TabList [])]
      = ([], false) := by
  refine ⟨?_, ?_, ?_⟩
  · exact (terminated_error_truncates TabState.None 3 (fun _ => false)).1 rfl
  · exact (terminated_error_truncates TabState.None 3
      (fun c => c == Chan.tabs)).2.1 rfl rfl
  · have h := (terminated_error_truncates TabState.None 3 (fun _ => false)).2.2
      (Response.TabTerminated 3) [(TabState.None, Response.TabList [])] rfl
    simpa using h
